import Mathlib

/-!
Verification of the nymph delegated-authentication core against its
natural-language specification.

The definitions below are a shallow embedding of the Rust sources:

* `ErrorCode`, `ApiError`      — nymph-model/src/lib.rs
* `ErrorRs.ErrorCode`          — nymph-model/src/error.rs (the second,
                                 unwired error-code scheme)
* the delegated request loop   — nymph-bot/src/http/client.rs, Request::send
* API-key extraction           — nymph-server/src/auth/api_key.rs
* the discord upsert handler   — nymph-server/src/routes/user/mod.rs
* the token claims codec       — modelled from the spec (see its doc comment)

Rust u32 wire codes are modelled as Nat: the conversions only pattern-match
on literal values, no arithmetic overflows.
-/

/-- Error code enumeration of nymph-model/src/lib.rs (the crate root; this is
the scheme imported by both the bot client and the server). -/
inductive ErrorCode
  | MalformedJson
  | InvalidData
  | UnsupportedContentType
  | NotFound
  | Forbidden
  | Hidden
  | AlreadyOwned
  | Unowned
  | Unauthenticated
  | BadCredentials
  | InsufficientPermissions
  | InternalServerError
  | Other (n : Nat)
deriving DecidableEq

/-- The impl From of u32 for ErrorCode in nymph-model/src/lib.rs lines 104-122.
The Rust match on u32 literals is embedded as a chain of equality tests. -/
def ErrorCode.ofNat (value : Nat) : ErrorCode :=
  if value = 4000 then ErrorCode.MalformedJson
  else if value = 4001 then ErrorCode.InvalidData
  else if value = 4002 then ErrorCode.UnsupportedContentType
  else if value = 4003 then ErrorCode.NotFound
  else if value = 4004 then ErrorCode.Unauthenticated
  else if value = 4005 then ErrorCode.Forbidden
  else if value = 4006 then ErrorCode.Hidden
  else if value = 4007 then ErrorCode.InsufficientPermissions
  else if value = 4008 then ErrorCode.AlreadyOwned
  else if value = 4009 then ErrorCode.Unowned
  else if value = 4010 then ErrorCode.BadCredentials
  else if value = 5000 then ErrorCode.InternalServerError
  else ErrorCode.Other value

/-- The impl From of ErrorCode for u32 in nymph-model/src/lib.rs lines 124-142. -/
def ErrorCode.toNat : ErrorCode → Nat
  | ErrorCode.MalformedJson => 4000
  | ErrorCode.InvalidData => 4001
  | ErrorCode.UnsupportedContentType => 4002
  | ErrorCode.NotFound => 4003
  | ErrorCode.Unauthenticated => 4004
  | ErrorCode.Forbidden => 4005
  | ErrorCode.Hidden => 4006
  | ErrorCode.InsufficientPermissions => 4007
  | ErrorCode.AlreadyOwned => 4008
  | ErrorCode.Unowned => 4009
  | ErrorCode.BadCredentials => 4010
  | ErrorCode.InternalServerError => 5000
  | ErrorCode.Other other => other

/-- Structured API error body of nymph-model/src/lib.rs lines 54-61. -/
structure ApiError where
  code : ErrorCode
  message : String
deriving DecidableEq

namespace ErrorRs

/-- Error code enumeration of nymph-model/src/error.rs (the unified
InvalidTransfer scheme; this file is not declared as a module of the crate
root). It has no Unowned variant. -/
inductive ErrorCode
  | MalformedJson
  | InvalidData
  | UnsupportedContentType
  | NotFound
  | Forbidden
  | Hidden
  | InvalidTransfer
  | Unauthenticated
  | BadCredentials
  | InsufficientPermissions
  | InternalServerError
  | Other (n : Nat)
deriving DecidableEq

/-- The impl From of u32 for ErrorCode in nymph-model/src/error.rs lines 57-74.
Note 4009 is absent from this match: it falls to the catch-all arm. -/
def ErrorCode.ofNat (value : Nat) : ErrorCode :=
  if value = 4000 then ErrorCode.MalformedJson
  else if value = 4001 then ErrorCode.InvalidData
  else if value = 4002 then ErrorCode.UnsupportedContentType
  else if value = 4003 then ErrorCode.NotFound
  else if value = 4004 then ErrorCode.Unauthenticated
  else if value = 4005 then ErrorCode.Forbidden
  else if value = 4006 then ErrorCode.Hidden
  else if value = 4007 then ErrorCode.InsufficientPermissions
  else if value = 4008 then ErrorCode.InvalidTransfer
  else if value = 4010 then ErrorCode.BadCredentials
  else if value = 5000 then ErrorCode.InternalServerError
  else ErrorCode.Other value

/-- The impl From of ErrorCode for u32 in nymph-model/src/error.rs lines 76-93. -/
def ErrorCode.toNat : ErrorCode → Nat
  | ErrorCode.MalformedJson => 4000
  | ErrorCode.InvalidData => 4001
  | ErrorCode.UnsupportedContentType => 4002
  | ErrorCode.NotFound => 4003
  | ErrorCode.Unauthenticated => 4004
  | ErrorCode.Forbidden => 4005
  | ErrorCode.Hidden => 4006
  | ErrorCode.InsufficientPermissions => 4007
  | ErrorCode.InvalidTransfer => 4008
  | ErrorCode.BadCredentials => 4010
  | ErrorCode.InternalServerError => 5000
  | ErrorCode.Other other => other

end ErrorRs

/-- The integers enumerated by the spec's wire table. -/
def wireTable : List Nat :=
  [4000, 4001, 4002, 4003, 4004, 4005, 4006, 4007, 4008, 4009, 4010, 5000]

/-!
## The bot client's delegated request loop

Embedding of Request::send (nymph-bot/src/http/client.rs lines 212-271)
together with the pieces of the client it calls:

* the token cache lookup `user_cache.get(&user.id).and_then(|u| u.access_token)`;
* minting through `update_discord_user(..).generate_token(true).execute()`
  (http/request/user.rs lines 46-69), whose `update_cache` call
  (client.rs lines 138-156) stores the returned access token under the
  target user's id, keeping any previously cached token when the response
  carries none;
* cache invalidation `user_cache.invalidate(&user.id)`.

The outside world (the backend's response to each executed HTTP attempt,
and the outcome of each mint round trip) is an explicit environment.
Tokens are abstract values (Nat). The cache is restricted to the single
entry of the target principal: an entry is `Option Token` (a cached user
whose access_token may be absent), and the cache state is
`Option (Option Token)` (entry present or not).
-/

/-- An abstract bearer token value. -/
abbrev Token := Nat

/-- The cache state for the target principal: no entry, or an entry whose
access_token field is optional (CachedUser.access_token in client.rs). -/
abbrev CacheEntry := Option (Option Token)

/-- The access-token lookup `user_cache.get(&user.id).and_then(|u| u.access_token)`
(client.rs lines 221-227). -/
def cachedToken (c : CacheEntry) : Option Token :=
  c.bind (fun t => t)

/-- Outcome of executing one HTTP attempt, as classified by the source:
a 2xx success, or a parsed structured error body. -/
inductive ApiResponse
  | ok
  | err (e : ApiError)
deriving DecidableEq

/-- Outcome of one mint round trip (the `update_discord_user` call inside
`send`): a token, a 2xx response with no access_token field (the
"server refused to give access token" branch), or a failed request. -/
inductive MintResult
  | ok (t : Token)
  | noToken
  | httpError
deriving DecidableEq

/-- The environment a delegated send runs against: the response to the i-th
executed attempt of this request, and the result of the i-th mint call. -/
structure Env where
  responses : Nat → ApiResponse
  mints : Nat → MintResult

/-- Drops the first a responses and the first m mint results: the
environment as seen after a attempts and m mints have happened. -/
def Env.shift (env : Env) (a m : Nat) : Env :=
  ⟨fun i => env.responses (a + i), fun j => env.mints (m + j)⟩

/-- The error results of Request::send in delegated mode. -/
inductive SendError
  | tokenRefresh
  | api (e : ApiError)
  | mintNoToken
  | mintHttp
deriving DecidableEq

/-- A successful send: which attempt succeeded and which credential it
carried (none for the privileged X-Api-Key path). -/
structure Sent where
  attemptIdx : Nat
  viaToken : Option Token
deriving DecidableEq

/-- Everything observable about one run of Request::send: the final cache
state for the target principal, how many HTTP attempts were executed, how
many mint calls were made, how many times the cached token was invalidated,
and the returned value. -/
structure SendOutcome where
  cache : CacheEntry
  attempts : Nat
  mintCalls : Nat
  invalidations : Nat
  result : Except SendError Sent

instance {ε α : Type} [DecidableEq ε] [DecidableEq α] : DecidableEq (Except ε α)
  | Except.ok a, Except.ok b =>
    if h : a = b then Decidable.isTrue (by rw [h])
    else Decidable.isFalse (by intro hc; cases hc; exact h rfl)
  | Except.ok _, Except.error _ => Decidable.isFalse (by intro hc; cases hc)
  | Except.error _, Except.ok _ => Decidable.isFalse (by intro hc; cases hc)
  | Except.error a, Except.error b =>
    if h : a = b then Decidable.isTrue (by rw [h])
    else Decidable.isFalse (by intro hc; cases hc; exact h rfl)

instance : DecidableEq SendOutcome := fun a b => by
  cases a; cases b
  exact decidable_of_iff _ (Iff.of_eq (SendOutcome.mk.injEq _ _ _ _ _ _ _ _ _ _)).symm

/-- The token-acquisition step at the top of each loop iteration
(client.rs lines 220-238): use the cached access token if present,
otherwise mint one. On a successful mint, `update_cache` leaves the cache
entry holding exactly the minted token; on a 2xx mint response with no
token, `update_cache` still inserts an entry, whose access_token is the
old cached one (absent here, since this branch only runs on a cache miss);
a failed mint request returns before `update_cache`. Returns either a
terminal outcome (mint failure short-circuits `send` via the ? operator)
or the cache state, the token to use, and how many mint calls were made. -/
def tokenStep (env : Env) (c : CacheEntry) :
    Except SendOutcome (CacheEntry × Token × Nat) :=
  match cachedToken c with
  | some tok => Except.ok (c, tok, 0)
  | none =>
    match env.mints 0 with
    | MintResult.httpError =>
      Except.error ⟨c, 0, 1, 0, Except.error SendError.mintHttp⟩
    | MintResult.noToken =>
      Except.error ⟨some none, 0, 1, 0, Except.error SendError.mintNoToken⟩
    | MintResult.ok tok => Except.ok (some (some tok), tok, 1)

/-- The delegated retry loop of Request::send (client.rs lines 219-267),
by fuel on the remaining iterations of `for _ in 0..token_refresh_retries`.
Each iteration acquires a token, executes the request, returns on success,
returns the structured error unchanged on a non-BadCredentials error, and
on BadCredentials invalidates the cache entry and continues. Falling out
of the loop yields TokenRefreshError. -/
def sendLoop (env : Env) : Nat → CacheEntry → SendOutcome
  | 0, c => ⟨c, 0, 0, 0, Except.error SendError.tokenRefresh⟩
  | Nat.succ n, c =>
    match tokenStep env c with
    | Except.error out => out
    | Except.ok (c', tok, mu) =>
      match env.responses 0 with
      | ApiResponse.ok => ⟨c', 1, mu, 0, Except.ok ⟨0, some tok⟩⟩
      | ApiResponse.err e =>
        if e.code = ErrorCode.BadCredentials then
          let r := sendLoop (env.shift 1 mu) n none
          ⟨r.cache, r.attempts + 1, mu + r.mintCalls, 1 + r.invalidations,
            r.result.map (fun s => ⟨s.attemptIdx + 1, s.viaToken⟩)⟩
        else ⟨c', 1, mu, 0, Except.error (SendError.api e)⟩

/-- Request::send_privileged (client.rs lines 194-209): a single attempt
carrying the static API key; a non-success response surfaces the parsed
structured error. -/
def sendPrivileged (env : Env) (c : CacheEntry) : SendOutcome :=
  match env.responses 0 with
  | ApiResponse.ok => ⟨c, 1, 0, 0, Except.ok ⟨0, none⟩⟩
  | ApiResponse.err e => ⟨c, 1, 0, 0, Except.error (SendError.api e)⟩

/-- Request::send (client.rs lines 212-271): the delegated loop when
proxy_for is set, otherwise the privileged single attempt. -/
def Request.send (env : Env) (proxyFor : Bool) (retries : Nat)
    (c : CacheEntry) : SendOutcome :=
  if proxyFor then sendLoop env retries c else sendPrivileged env c

/-!
## The server's token claims codec

The module auth/token.rs is declared in auth/mod.rs (`pub mod token;`,
re-exporting Claims, ClaimsBuilder, Sub and TokenAuthentication) and is used
by the route handlers, but its source file is not under src/.
-/

/-- The failure kinds of jsonwebtoken decoding that the spec distinguishes
(spec section 4.5); app.rs matches on exactly ExpiredSignature and
InvalidSignature of this enum (lines 441-444). -/
inductive JwtErrorKind
  | ExpiredSignature
  | InvalidSignature
  | Malformed
deriving DecidableEq

/-- Modelled from the spec: token strings produced by the missing
auth/token.rs codec. Spec section 3: a token carries
{subject, issued_at, expires_at}, signed with the symmetric key; it is
symbolic here: a signed payload remembering which key signed it, or a
malformed string (for example a truncated one, which no longer parses). -/
inductive TokenStr
  | signed (sub : Nat) (iat : Int) (exp : Int) (key : Nat)
  | malformed
deriving DecidableEq

/-- The token claims: {subject: principal id, issued_at, expires_at}
(spec section 3; re-exported as Claims from the missing auth/token.rs). -/
structure Claims where
  sub : Nat
  iat : Int
  exp : Int
deriving DecidableEq

/-- Modelled from the spec: the ClaimsBuilder of the missing auth/token.rs as
used in routes/user/mod.rs line 125, Claims::builder(id).exp(ttl).build():
issued now, expiring after ttl. -/
def Claims.build (sub : Nat) (now ttl : Int) : Claims :=
  ⟨sub, now, now + ttl⟩

/-- Modelled from the spec: encode of the missing auth/token.rs
(spec section 4.5, encode(principal_id, ttl) -> token_string using the
symmetric signing key; embeds subject, issued-at, expiry). -/
def Claims.encode (c : Claims) (key : Nat) : TokenStr :=
  TokenStr.signed c.sub c.iat c.exp key

/-- Modelled from the spec: decode of the missing auth/token.rs
(spec section 4.5): a malformed string is Malformed; a signature by a
different key is InvalidSignature (signatures are verified before claims
validation); a token whose expiry has passed is ExpiredSignature; otherwise
the claims are returned. -/
def decodeToken (key : Nat) (now : Int) : TokenStr → Except JwtErrorKind Claims
  | TokenStr.malformed => Except.error JwtErrorKind.Malformed
  | TokenStr.signed s i e k =>
    if k ≠ key then Except.error JwtErrorKind.InvalidSignature
    else if e ≤ now then Except.error JwtErrorKind.ExpiredSignature
    else Except.ok ⟨s, i, e⟩

/-!
## Server-side errors and API-key authentication

From nymph-server/src/app.rs and nymph-server/src/auth/api_key.rs.
-/

/-- Database-level errors (sqlx::Error), restricted to what the embedded
code paths distinguish: a uniqueness-constraint violation and any other
connection or execution failure. -/
inductive DbError
  | uniqueViolation
  | connectionError
deriving DecidableEq

/-- AppErrorKind (app.rs lines 240-295), restricted to the variants the
embedded code paths can produce. The axum extraction-rejection wrappers
(Query, Form, Json, content-type and mTLS variants) model framework
plumbing outside these claims and are omitted. The variant the source
declares as Unauthorized at app.rs line 285 is the one api_key.rs lines
79 and 82 spells AppErrorKind::Unauthenticated; this embedding uses the
declaration site's name. -/
inductive AppErrorKind
  | Forbidden
  | InsufficientPermissions
  | Unauthorized
  | InvalidAuthorization (k : JwtErrorKind)
  | Database (e : DbError)
deriving DecidableEq

/-- The wire error code chosen by AppError::into_response
(app.rs lines 309-474) for each embedded variant: Forbidden maps at lines
413-420, InsufficientPermissions at 429-436, InvalidAuthorization (every
JWT failure kind) to BadCredentials at 437-451, Unauthorized at 452-461
(the source writes ErrorCode::Unauthorized there; the code of that row of
the spec's wire table, 4004, is the lib.rs variant named Unauthenticated),
and Database falls to the generic internal-error arm at 462-473. -/
def AppErrorKind.intoErrorCode : AppErrorKind → ErrorCode
  | AppErrorKind.Forbidden => ErrorCode.Forbidden
  | AppErrorKind.InsufficientPermissions => ErrorCode.InsufficientPermissions
  | AppErrorKind.Unauthorized => ErrorCode.Unauthenticated
  | AppErrorKind.InvalidAuthorization _ => ErrorCode.BadCredentials
  | AppErrorKind.Database _ => ErrorCode.InternalServerError

/-- AuthenticatedUser (used by auth/api_key.rs; its declaration lives in the
auth module): the row `SELECT u.id, u.display_name, u.managed` resolves to. -/
structure AuthenticatedUser where
  id : Nat
  display_name : String
  managed : Bool
deriving DecidableEq

/-- ApiKeyAuthentication (api_key.rs lines 22-26). -/
structure ApiKeyAuthentication where
  user : AuthenticatedUser
deriving DecidableEq

/-- ApiKeyAuthentication::from_request_parts (api_key.rs lines 35-84).
Inputs: the hash function (hash_key, a SHA-256 hex digest; passed as a
parameter since its value is cryptographic and no claim depends on it), the
api_auth table joined with user as a hash-to-user association list, the
per-request memo (parts.extensions), and the X-Api-Key header (already
decoded to a string; an unreadable header value behaves as absent, matching
`.and_then(|s| s.to_str().ok())`). The source also inserts the result into
parts.extensions; that write-back is the memo the first argument models. -/
def ApiKeyAuthentication.fromRequestParts (hashKey : String → String)
    (apiAuth : List (String × AuthenticatedUser))
    (cached : Option ApiKeyAuthentication)
    (header : Option String) : Except AppErrorKind ApiKeyAuthentication :=
  match cached with
  | some auth => Except.ok auth
  | none =>
    match header.map (fun s => s.trim) with
    | some key =>
      match apiAuth.find? (fun p => p.1 == hashKey key) with
      | some p => Except.ok ⟨p.2⟩
      | none => Except.error AppErrorKind.Unauthorized
    | none => Except.error AppErrorKind.Unauthorized

/-!
## The discord upsert handler

From nymph-server/src/routes/user/mod.rs (the `discord` handler) and the
nymph-model request and response bodies it exchanges. Database state is the
two tables the handler touches; every fallible database call is numbered in
execution order and an oracle says which of them fail, so that the
transactional claims quantify over every failure point (including the
uniqueness violation a racing first-contact request causes).
-/

/-- UpdateDiscordUserRequest (nymph-model/src/request/user/mod.rs).
The discord id is a snowflake (NonZeroU64), modelled as Nat. -/
structure UpdateDiscordUserRequest where
  discord_id : Nat
  display_name : String
  generate_token : Bool
deriving DecidableEq

/-- User (nymph-model/src/user.rs). The id is an i32 row id, modelled as
Nat (row ids are allocated by the database, starting positive). -/
structure User where
  id : Nat
  display_name : String
deriving DecidableEq

/-- UpdateDiscordUserResponse (nymph-model/src/response/user.rs). -/
structure UpdateDiscordUserResponse where
  user : User
  discord_id : Nat
  access_token : Option TokenStr
deriving DecidableEq

/-- A row of the user table as the handler reads it (the UserQuery struct,
routes/user/mod.rs lines 29-37). Timestamps are abstract instants. -/
structure UserRow where
  id : Nat
  display_name : String
  managed : Bool
  inserted_at : Int
  updated_at : Int
deriving DecidableEq

/-- A row of the discord_auth table (user_id, discord_id, inserted_at). -/
structure DiscordAuthRow where
  user_id : Nat
  discord_id : Nat
  inserted_at : Int
deriving DecidableEq

/-- The database state the handler touches, plus the next row id the user
table will allocate. -/
structure Db where
  users : List UserRow
  discordAuth : List DiscordAuthRow
  nextId : Nat
deriving DecidableEq

/-- The lookup `SELECT .. FROM user u, discord_auth da WHERE u.id =
da.user_id AND da.discord_id = $1` with fetch_optional
(routes/user/mod.rs lines 43-54). -/
def Db.lookupDiscord (db : Db) (did : Nat) : Option UserRow :=
  (db.discordAuth.find? (fun da => da.discord_id == did)).bind
    (fun da => db.users.find? (fun u => u.id == da.user_id))

/-- Which numbered database call fails, and how. The handler's fallible
calls in execution order: 0 acquire, 1 the SELECT lookup, then on the
found-with-stale-name path 2 the UPDATE, or on the create path 2 begin,
3 INSERT user, 4 INSERT discord_auth, 5 commit. -/
abbrev DbOracle := Nat → Option DbError

/-- The fixed token ttl of the handler: TimeDelta::minutes(15)
(routes/user/mod.rs line 125), in seconds. -/
def tokenTtl : Int := 15 * 60

/-- The tail of the handler (routes/user/mod.rs lines 118-135): build the
response from the user row the match bound (on the stale-name path this is
the row as fetched, before the UPDATE), minting a token only when the
request asks for one. -/
def discordRespond (req : UpdateDiscordUserRequest) (now : Int) (key : Nat)
    (u : UserRow) : Except AppErrorKind UpdateDiscordUserResponse :=
  Except.ok
    ⟨⟨u.id, u.display_name⟩, req.discord_id,
      if req.generate_token
        then some ((Claims.build u.id now tokenTtl).encode key)
        else none⟩

/-- The discord handler (routes/user/mod.rs lines 20-136). Requires a
managed caller (lines 25-27, Forbidden otherwise); looks the principal up
by discord id; updates a stale display name in place; otherwise creates the
principal row and its discord_auth link inside one transaction
(conn.begin .. tx.commit, lines 83-112): any failure between begin and
commit rolls back to the incoming database state. The INSERT into
discord_auth reports a uniqueness violation when a row with the same
discord_id already exists; that storage-level unique constraint on the
external identity is modelled from the spec (section 5), the SQL migrations
not being under src/. -/
def discord (orc : DbOracle) (db : Db) (auth : AuthenticatedUser)
    (req : UpdateDiscordUserRequest) (now : Int) (key : Nat) :
    Db × Except AppErrorKind UpdateDiscordUserResponse :=
  if !auth.managed then (db, Except.error AppErrorKind.Forbidden)
  else
    match orc 0 with
    | some e => (db, Except.error (AppErrorKind.Database e))
    | none =>
    match orc 1 with
    | some e => (db, Except.error (AppErrorKind.Database e))
    | none =>
    match db.lookupDiscord req.discord_id with
    | some user =>
      if user.display_name ≠ req.display_name then
        match orc 2 with
        | some e => (db, Except.error (AppErrorKind.Database e))
        | none =>
          let users' := db.users.map (fun u =>
            if u.id == user.id
              then { u with display_name := req.display_name,
                            updated_at := now }
              else u)
          ({ db with users := users' }, discordRespond req now key user)
      else (db, discordRespond req now key user)
    | none =>
      match orc 2 with
      | some e => (db, Except.error (AppErrorKind.Database e))
      | none =>
      match orc 3 with
      | some e => (db, Except.error (AppErrorKind.Database e))
      | none =>
        let newUser : UserRow := ⟨db.nextId, req.display_name, false, now, now⟩
        if db.discordAuth.any (fun da => da.discord_id == req.discord_id) then
          (db, Except.error (AppErrorKind.Database DbError.uniqueViolation))
        else
          match orc 4 with
          | some e => (db, Except.error (AppErrorKind.Database e))
          | none =>
          match orc 5 with
          | some e => (db, Except.error (AppErrorKind.Database e))
          | none =>
            ({ users := db.users ++ [newUser],
               discordAuth :=
                 db.discordAuth ++ [⟨newUser.id, req.discord_id, now⟩],
               nextId := db.nextId + 1 },
             discordRespond req now key newUser)

/-!
## Concrete inputs used by witnesses and counterexamples
-/

/-- One BadCredentials rejection, then success; every mint succeeds. -/
def envC1 : Env :=
  ⟨fun i => if i = 0 then ApiResponse.err ⟨ErrorCode.BadCredentials, "stale"⟩
            else ApiResponse.ok,
   fun j => MintResult.ok j⟩

/-- Every attempt is rejected as BadCredentials; every mint succeeds. -/
def envC2 : Env :=
  ⟨fun _ => ApiResponse.err ⟨ErrorCode.BadCredentials, "stale"⟩,
   fun j => MintResult.ok j⟩

/-- One BadCredentials rejection, then a NotFound error; mints succeed. -/
def envC3 : Env :=
  ⟨fun i => if i = 0 then ApiResponse.err ⟨ErrorCode.BadCredentials, "stale"⟩
            else ApiResponse.err ⟨ErrorCode.NotFound, "missing"⟩,
   fun j => MintResult.ok j⟩

/-- An oracle under which every database call succeeds. -/
def orcNone : DbOracle := fun _ => none

/-- An empty database. -/
def dbEmpty : Db := ⟨[], [], 1⟩

/-- A database holding a discord_auth row for discord id 42 whose owning
principal row is not visible: the state the racing first-contact commit
leaves for the loser between its SELECT and its INSERT. -/
def dbDangling : Db := ⟨[], [⟨7, 42, 0⟩], 1⟩

/-- A managed (service) caller. -/
def authBot : AuthenticatedUser := ⟨1, "bot", true⟩

/-- An ordinary, non-managed authenticated caller. -/
def authPlain : AuthenticatedUser := ⟨2, "alice", false⟩

/-- An upsert request for discord id 42 asking for a token. -/
def reqAlice : UpdateDiscordUserRequest := ⟨42, "alice", true⟩

/-!
## Lemmas about the delegated send loop
-/

/-- A cache state with a visible access token is exactly an entry holding
that token. -/
theorem cachedToken_eq_some {c : CacheEntry} {tok : Token}
    (h : cachedToken c = some tok) : c = some (some tok) := by
  match c with
  | none => simp [cachedToken] at h
  | some none => simp [cachedToken] at h
  | some (some t) => simp [cachedToken] at h; rw [h]

/-- When every mint succeeds, the token-acquisition step always yields a
token, and afterwards the cache entry holds exactly the token in hand. -/
theorem tokenStep_ok_of_mints (env : Env) (c : CacheEntry) (t : Nat → Token)
    (hm : ∀ j, env.mints j = MintResult.ok (t j)) :
    ∃ tok mu, tokenStep env c = Except.ok (some (some tok), tok, mu) := by
  cases h : cachedToken c with
  | some tok =>
    refine ⟨tok, 0, ?_⟩
    have hc : c = some (some tok) := cachedToken_eq_some h
    subst hc
    simp [tokenStep, cachedToken]
  | none => exact ⟨t 0, 1, by simp [tokenStep, h, hm 0]⟩

/-- On a cold cache, the token-acquisition step mints. -/
theorem tokenStep_of_mint {env : Env} {c : CacheEntry} {tok : Token}
    (hc : cachedToken c = none) (hm : env.mints 0 = MintResult.ok tok) :
    tokenStep env c = Except.ok (some (some tok), tok, 1) := by
  simp [tokenStep, hc, hm]

/-- Unfolding one loop iteration whose attempt succeeds. -/
theorem sendLoop_step_success {env : Env} {n : Nat} {c c' : CacheEntry}
    {tok : Token} {mu : Nat}
    (ht : tokenStep env c = Except.ok (c', tok, mu))
    (hr : env.responses 0 = ApiResponse.ok) :
    sendLoop env (n + 1) c = ⟨c', 1, mu, 0, Except.ok ⟨0, some tok⟩⟩ := by
  simp [sendLoop, ht, hr]

/-- Unfolding one loop iteration whose attempt is rejected as
BadCredentials: the entry is invalidated and the loop continues. -/
theorem sendLoop_step_badcred {env : Env} {n : Nat} {c c' : CacheEntry}
    {tok : Token} {mu : Nat} {e : ApiError}
    (ht : tokenStep env c = Except.ok (c', tok, mu))
    (hr : env.responses 0 = ApiResponse.err e)
    (hb : e.code = ErrorCode.BadCredentials) :
    sendLoop env (n + 1) c =
      ⟨(sendLoop (env.shift 1 mu) n none).cache,
        (sendLoop (env.shift 1 mu) n none).attempts + 1,
        mu + (sendLoop (env.shift 1 mu) n none).mintCalls,
        1 + (sendLoop (env.shift 1 mu) n none).invalidations,
        ((sendLoop (env.shift 1 mu) n none).result).map
          (fun s => ⟨s.attemptIdx + 1, s.viaToken⟩)⟩ := by
  simp [sendLoop, ht, hr, hb]

/-- Unfolding one loop iteration whose attempt fails with any other error
code: the structured error returns unchanged and nothing is invalidated. -/
theorem sendLoop_step_fatal {env : Env} {n : Nat} {c c' : CacheEntry}
    {tok : Token} {mu : Nat} {e : ApiError}
    (ht : tokenStep env c = Except.ok (c', tok, mu))
    (hr : env.responses 0 = ApiResponse.err e)
    (hb : ¬e.code = ErrorCode.BadCredentials) :
    sendLoop env (n + 1) c = ⟨c', 1, mu, 0, Except.error (SendError.api e)⟩ := by
  simp [sendLoop, ht, hr, hb]

/-- Running the loop against k BadCredentials rejections followed by a
success, with every mint succeeding and at least k + 1 iterations of
budget: the run succeeds on attempt k, having invalidated once per
rejection, and the cache ends holding exactly the token of the final
attempt. -/
theorem sendLoop_run_success :
    ∀ (k : Nat) (env : Env) (N : Nat) (c : CacheEntry) (t : Nat → Token),
      (∀ j, env.mints j = MintResult.ok (t j)) → k < N →
      (∀ i, i < k → ∃ e, env.responses i = ApiResponse.err e ∧
        e.code = ErrorCode.BadCredentials) →
      env.responses k = ApiResponse.ok →
      ∃ tok mu, sendLoop env N c =
        ⟨some (some tok), k + 1, mu, k, Except.ok ⟨k, some tok⟩⟩ := by
  intro k
  induction k with
  | zero =>
    intro env N c t hm hk hbad hok
    obtain ⟨n, rfl⟩ : ∃ n, N = n + 1 := ⟨N - 1, by omega⟩
    obtain ⟨tok, mu, ht⟩ := tokenStep_ok_of_mints env c t hm
    exact ⟨tok, mu, by rw [sendLoop_step_success ht hok]⟩
  | succ k ih =>
    intro env N c t hm hk hbad hok
    obtain ⟨n, rfl⟩ : ∃ n, N = n + 1 := ⟨N - 1, by omega⟩
    obtain ⟨tok0, mu, ht⟩ := tokenStep_ok_of_mints env c t hm
    obtain ⟨e0, hr0, hb0⟩ := hbad 0 (Nat.succ_pos k)
    obtain ⟨tok, mu', hrec⟩ := ih (env.shift 1 mu) n none (fun j => t (mu + j))
      (fun j => hm (mu + j)) (by omega)
      (fun i hi => by
        obtain ⟨e, he, hc⟩ := hbad (i + 1) (by omega)
        exact ⟨e, by show env.responses (1 + i) = _; rw [Nat.add_comm]; exact he,
          hc⟩)
      (by show env.responses (1 + k) = _; rw [Nat.add_comm]; exact hok)
    refine ⟨tok, mu + mu', ?_⟩
    rw [sendLoop_step_badcred ht hr0 hb0, hrec]
    simp [Except.map, Nat.add_comm]

/-- Running the loop against k BadCredentials rejections followed by a
non-BadCredentials structured error, within budget: the run stops right
after attempt k, returns that error unchanged, invalidated once per
rejection and not for the final error, and the cache still holds the token
of the final attempt. -/
theorem sendLoop_run_fatal :
    ∀ (k : Nat) (env : Env) (N : Nat) (c : CacheEntry) (t : Nat → Token)
      (e : ApiError),
      (∀ j, env.mints j = MintResult.ok (t j)) → k < N →
      (∀ i, i < k → ∃ d, env.responses i = ApiResponse.err d ∧
        d.code = ErrorCode.BadCredentials) →
      env.responses k = ApiResponse.err e →
      ¬e.code = ErrorCode.BadCredentials →
      ∃ tok mu, sendLoop env N c =
        ⟨some (some tok), k + 1, mu, k, Except.error (SendError.api e)⟩ := by
  intro k
  induction k with
  | zero =>
    intro env N c t e hm hk hbad hre hbe
    obtain ⟨n, rfl⟩ : ∃ n, N = n + 1 := ⟨N - 1, by omega⟩
    obtain ⟨tok, mu, ht⟩ := tokenStep_ok_of_mints env c t hm
    exact ⟨tok, mu, by rw [sendLoop_step_fatal ht hre hbe]⟩
  | succ k ih =>
    intro env N c t e hm hk hbad hre hbe
    obtain ⟨n, rfl⟩ : ∃ n, N = n + 1 := ⟨N - 1, by omega⟩
    obtain ⟨tok0, mu, ht⟩ := tokenStep_ok_of_mints env c t hm
    obtain ⟨e0, hr0, hb0⟩ := hbad 0 (Nat.succ_pos k)
    obtain ⟨tok, mu', hrec⟩ := ih (env.shift 1 mu) n none (fun j => t (mu + j))
      e (fun j => hm (mu + j)) (by omega)
      (fun i hi => by
        obtain ⟨d, hd, hc⟩ := hbad (i + 1) (by omega)
        exact ⟨d, by show env.responses (1 + i) = _; rw [Nat.add_comm]; exact hd,
          hc⟩)
      (by show env.responses (1 + k) = _; rw [Nat.add_comm]; exact hre) hbe
    refine ⟨tok, mu + mu', ?_⟩
    rw [sendLoop_step_badcred ht hr0 hb0, hrec]
    simp [Except.map, Nat.add_comm]

/-- Running the loop from a cache with no token against nothing but
BadCredentials rejections: every iteration mints once, attempts once and
invalidates once, and falling out of the loop yields TokenRefreshError. -/
theorem sendLoop_run_exhaust :
    ∀ (n : Nat) (env : Env) (c : CacheEntry) (t : Nat → Token),
      (∀ j, env.mints j = MintResult.ok (t j)) →
      cachedToken c = none →
      (∀ i, i < n → ∃ e, env.responses i = ApiResponse.err e ∧
        e.code = ErrorCode.BadCredentials) →
      (sendLoop env n c).attempts = n ∧ (sendLoop env n c).mintCalls = n ∧
        (sendLoop env n c).invalidations = n ∧
        (sendLoop env n c).result = Except.error SendError.tokenRefresh := by
  intro n
  induction n with
  | zero =>
    intro env c t hm hc hbad
    simp [sendLoop]
  | succ n ih =>
    intro env c t hm hc hbad
    have ht := tokenStep_of_mint hc (hm 0)
    obtain ⟨e0, hr0, hb0⟩ := hbad 0 (Nat.succ_pos n)
    obtain ⟨h1, h2, h3, h4⟩ := ih (env.shift 1 1) none (fun j => t (1 + j))
      (fun j => hm (1 + j)) rfl
      (fun i hi => by
        obtain ⟨e, he, hcode⟩ := hbad (i + 1) (by omega)
        exact ⟨e, by show env.responses (1 + i) = _; rw [Nat.add_comm]; exact he,
          hcode⟩)
    rw [sendLoop_step_badcred ht hr0 hb0]
    simp [h1, h2, h3, h4, Except.map, Nat.add_comm]

/-!
## Claims about the delegated request loop
-/

/-- C1 (amended): in delegated mode, for every k strictly below the
configured retry budget, if the first k attempts are rejected with a
structured BadCredentials error and the next attempt receives a 2xx
response (every mint succeeding), Request::send returns that successful
response, and afterwards the cache entry for the target principal holds
exactly the token used on the final, successful attempt. -/
theorem send_delegated_badcred_then_success
    (env : Env) (N k : Nat) (c : CacheEntry) (t : Nat → Token)
    (hm : ∀ j, env.mints j = MintResult.ok (t j))
    (hk : k < N)
    (hbad : ∀ i, i < k → ∃ e, env.responses i = ApiResponse.err e ∧
      e.code = ErrorCode.BadCredentials)
    (hok : env.responses k = ApiResponse.ok) :
    ∃ tok, (Request.send env true N c).result = Except.ok ⟨k, some tok⟩ ∧
      (Request.send env true N c).cache = some (some tok) := by
  obtain ⟨tok, mu, h⟩ := sendLoop_run_success k env N c t hm hk hbad hok
  exact ⟨tok, by simp [Request.send, h], by simp [Request.send, h]⟩

/-- Witness for C1's theorem: budget 2, one BadCredentials rejection, then
success. -/
theorem send_delegated_badcred_then_success_witness :
    ∃ tok, (Request.send envC1 true 2 none).result = Except.ok ⟨1, some tok⟩ ∧
      (Request.send envC1 true 2 none).cache = some (some tok) :=
  send_delegated_badcred_then_success envC1 2 1 none (fun j => j)
    (fun _ => rfl) (by omega)
    (fun i hi => by
      have h0 : i = 0 := by omega
      subst h0
      exact ⟨⟨ErrorCode.BadCredentials, "stale"⟩, rfl, rfl⟩)
    rfl

/-- Counterexample to C1 as stated: with k equal to the retry budget (here
both 1), the first attempt is rejected with BadCredentials and the next
attempt would succeed, yet Request::send does not return that success — the
loop is already exhausted and it returns TokenRefreshError. -/
theorem send_delegated_badcred_at_budget_counterexample :
    (Request.send envC1 true 1 none).result =
      Except.error SendError.tokenRefresh ∧
    ¬∃ s, (Request.send envC1 true 1 none).result = Except.ok s := by
  refine ⟨by decide, ?_⟩
  rintro ⟨s, hs⟩
  rw [show (Request.send envC1 true 1 none).result =
      Except.error SendError.tokenRefresh from by decide] at hs
  exact Except.noConfusion hs

/-- C2: in delegated mode, starting with no cached token, when every
attempt keeps being rejected with BadCredentials (every mint succeeding),
Request::send returns the synthetic TokenRefreshError — never a raw
structured API error — after exactly retry_budget mint calls and
retry_budget attempts. -/
theorem send_delegated_exhausted
    (env : Env) (N : Nat) (c : CacheEntry) (t : Nat → Token)
    (hm : ∀ j, env.mints j = MintResult.ok (t j))
    (hc : cachedToken c = none)
    (hbad : ∀ i, i ≤ N → ∃ e, env.responses i = ApiResponse.err e ∧
      e.code = ErrorCode.BadCredentials) :
    (Request.send env true N c).result = Except.error SendError.tokenRefresh ∧
    (Request.send env true N c).mintCalls = N ∧
    (Request.send env true N c).attempts = N ∧
    ∀ e, (Request.send env true N c).result ≠
      Except.error (SendError.api e) := by
  obtain ⟨h1, h2, h3, h4⟩ := sendLoop_run_exhaust N env c t hm hc
    (fun i hi => hbad i (Nat.le_of_lt hi))
  refine ⟨by simp [Request.send, h4], by simp [Request.send, h2],
    by simp [Request.send, h1], ?_⟩
  intro e h
  rw [show (Request.send env true N c).result = (sendLoop env N c).result from
    by simp [Request.send], h4] at h
  exact SendError.noConfusion (Except.error.inj h)

/-- Witness for C2's theorem: budget 3, every response BadCredentials. -/
theorem send_delegated_exhausted_witness :
    (Request.send envC2 true 3 none).result =
      Except.error SendError.tokenRefresh ∧
    (Request.send envC2 true 3 none).mintCalls = 3 ∧
    (Request.send envC2 true 3 none).attempts = 3 ∧
    ∀ e, (Request.send envC2 true 3 none).result ≠
      Except.error (SendError.api e) :=
  send_delegated_exhausted envC2 3 none (fun j => j) (fun _ => rfl) rfl
    (fun _ _ => ⟨⟨ErrorCode.BadCredentials, "stale"⟩, rfl, rfl⟩)

/-- C3: in delegated mode, k BadCredentials rejections within the budget
each trigger exactly one invalidation of the cached token followed by one
retry, and a response with any other structured error code makes
Request::send return that error unchanged at once: attempts stop at k + 1,
the invalidation count stays at k (none for the final error), and the
cache entry still holds the token the final attempt used. -/
theorem send_delegated_error_propagation
    (env : Env) (N k : Nat) (c : CacheEntry) (t : Nat → Token) (e : ApiError)
    (hm : ∀ j, env.mints j = MintResult.ok (t j))
    (hk : k < N)
    (hbad : ∀ i, i < k → ∃ d, env.responses i = ApiResponse.err d ∧
      d.code = ErrorCode.BadCredentials)
    (hre : env.responses k = ApiResponse.err e)
    (hbe : ¬e.code = ErrorCode.BadCredentials) :
    (Request.send env true N c).result = Except.error (SendError.api e) ∧
    (Request.send env true N c).attempts = k + 1 ∧
    (Request.send env true N c).invalidations = k ∧
    ∃ tok, (Request.send env true N c).cache = some (some tok) := by
  obtain ⟨tok, mu, h⟩ := sendLoop_run_fatal k env N c t e hm hk hbad hre hbe
  exact ⟨by simp [Request.send, h], by simp [Request.send, h],
    by simp [Request.send, h], tok, by simp [Request.send, h]⟩

/-- Witness for C3's theorem: budget 3, one BadCredentials rejection, then
a NotFound error returned unchanged. -/
theorem send_delegated_error_propagation_witness :
    (Request.send envC3 true 3 none).result =
      Except.error (SendError.api ⟨ErrorCode.NotFound, "missing"⟩) ∧
    (Request.send envC3 true 3 none).attempts = 2 ∧
    (Request.send envC3 true 3 none).invalidations = 1 ∧
    ∃ tok, (Request.send envC3 true 3 none).cache = some (some tok) :=
  send_delegated_error_propagation envC3 3 1 none (fun j => j)
    ⟨ErrorCode.NotFound, "missing"⟩ (fun _ => rfl) (by omega)
    (fun i hi => by
      have h0 : i = 0 := by omega
      subst h0
      exact ⟨⟨ErrorCode.BadCredentials, "stale"⟩, rfl, rfl⟩)
    rfl (by decide)

/-- C10: in delegated mode with a retry budget of 0, Request::send returns
TokenRefreshError immediately: no HTTP attempt is executed, nothing is
minted, nothing is invalidated and the cache is left as it was. -/
theorem send_delegated_zero_budget (env : Env) (c : CacheEntry) :
    Request.send env true 0 c =
      ⟨c, 0, 0, 0, Except.error SendError.tokenRefresh⟩ := by
  simp [Request.send, sendLoop]

/-!
## Claims about server-side authentication and the token codec
-/

/-- C4 (amended): the API-key scheme returns the Unauthenticated-coded
error (the AppErrorKind the source declares as Unauthorized, wire code
4004) both when no X-Api-Key header is presented and when a presented
key's hash matches no stored record — the presented-but-unknown case is
not reported as BadCredentials. -/
theorem api_key_unknown_is_unauthorized
    (hashKey : String → String) (apiAuth : List (String × AuthenticatedUser))
    (header : Option String)
    (hmiss : ∀ s, header = some s →
      apiAuth.find? (fun p => p.1 == hashKey s.trim) = none) :
    ApiKeyAuthentication.fromRequestParts hashKey apiAuth none header =
      Except.error AppErrorKind.Unauthorized ∧
    AppErrorKind.intoErrorCode AppErrorKind.Unauthorized =
      ErrorCode.Unauthenticated := by
  refine ⟨?_, rfl⟩
  cases header with
  | none => rfl
  | some s =>
    simp [ApiKeyAuthentication.fromRequestParts, hmiss s rfl]

/-- Witness for C4's theorem: an empty credential store and the key
"secret" presented. -/
theorem api_key_unknown_is_unauthorized_witness :
    ApiKeyAuthentication.fromRequestParts (fun s => s) [] none
      (some "secret") = Except.error AppErrorKind.Unauthorized ∧
    AppErrorKind.intoErrorCode AppErrorKind.Unauthorized =
      ErrorCode.Unauthenticated :=
  api_key_unknown_is_unauthorized (fun s => s) [] (some "secret")
    (fun _ _ => rfl)

/-- Counterexample to C4 as stated: an X-Api-Key header is presented whose
hash matches no stored record, and from_request_parts returns the
Unauthenticated-coded error (api_key.rs line 79), not BadCredentials. -/
theorem api_key_unknown_counterexample :
    ApiKeyAuthentication.fromRequestParts (fun s => s) [] none
      (some "secret") = Except.error AppErrorKind.Unauthorized ∧
    AppErrorKind.intoErrorCode AppErrorKind.Unauthorized =
      ErrorCode.Unauthenticated ∧
    AppErrorKind.intoErrorCode AppErrorKind.Unauthorized ≠
      ErrorCode.BadCredentials := by
  exact ⟨rfl, rfl, by decide⟩

/-- C7: round-trip of the token claims codec. Encoding principal id with a
positive ttl and decoding before the ttl elapses yields claims whose
subject is the id; decoding after the ttl elapses yields ExpiredSignature;
decoding with a different key yields InvalidSignature; decoding a
malformed (truncated) token yields Malformed; and the three failure kinds
are pairwise distinct. -/
theorem token_codec_roundtrip (key altKey id : Nat) (iat ttl now : Int)
    (_httl : 0 < ttl) :
    (now < iat + ttl →
      decodeToken key now ((Claims.build id iat ttl).encode key) =
        Except.ok (Claims.build id iat ttl) ∧
      (Claims.build id iat ttl).sub = id) ∧
    (iat + ttl ≤ now →
      decodeToken key now ((Claims.build id iat ttl).encode key) =
        Except.error JwtErrorKind.ExpiredSignature) ∧
    (altKey ≠ key →
      decodeToken altKey now ((Claims.build id iat ttl).encode key) =
        Except.error JwtErrorKind.InvalidSignature) ∧
    decodeToken key now TokenStr.malformed =
      Except.error JwtErrorKind.Malformed ∧
    (JwtErrorKind.ExpiredSignature ≠ JwtErrorKind.InvalidSignature ∧
      JwtErrorKind.ExpiredSignature ≠ JwtErrorKind.Malformed ∧
      JwtErrorKind.InvalidSignature ≠ JwtErrorKind.Malformed) := by
  refine ⟨?_, ?_, ?_, rfl, by decide⟩
  · intro h
    refine ⟨?_, rfl⟩
    simp only [decodeToken, Claims.encode, Claims.build, ne_eq,
      not_true_eq_false, if_false]
    rw [if_neg (show ¬iat + ttl ≤ now by omega)]
  · intro h
    simp [decodeToken, Claims.encode, Claims.build, h]
  · intro h
    simp [decodeToken, Claims.encode, Claims.build, Ne.symm h]

/-- Witness for C7's theorem: key 0, id 7, ttl 900, decoded at times 10
and 1000 and with key 1. -/
theorem token_codec_roundtrip_witness :
    decodeToken 0 10 ((Claims.build 7 0 900).encode 0) =
      Except.ok (Claims.build 7 0 900) ∧
    decodeToken 0 1000 ((Claims.build 7 0 900).encode 0) =
      Except.error JwtErrorKind.ExpiredSignature ∧
    decodeToken 1 10 ((Claims.build 7 0 900).encode 0) =
      Except.error JwtErrorKind.InvalidSignature :=
  ⟨((token_codec_roundtrip 0 1 7 0 900 10 (by decide)).1 (by decide)).1,
    (token_codec_roundtrip 0 1 7 0 900 1000 (by decide)).2.1 (by decide),
    (token_codec_roundtrip 0 1 7 0 900 10 (by decide)).2.2.1 (by decide)⟩

/-- C8 (amended): a caller authenticated with a non-managed credential who
reaches the discord upsert handler gets Forbidden (routes/user/mod.rs
lines 25-27), with no database effect; only a caller presenting no
credential at all is rejected as Unauthenticated, by the extractor before
the handler runs. -/
theorem discord_nonmanaged_forbidden
    (orc : DbOracle) (db : Db) (auth : AuthenticatedUser)
    (req : UpdateDiscordUserRequest) (now : Int) (key : Nat)
    (h : auth.managed = false) :
    discord orc db auth req now key =
      (db, Except.error AppErrorKind.Forbidden) := by
  simp [discord, h]

/-- Witness for C8's theorem: an ordinary non-managed caller against an
empty database. -/
theorem discord_nonmanaged_forbidden_witness :
    discord orcNone dbEmpty authPlain reqAlice 0 0 =
      (dbEmpty, Except.error AppErrorKind.Forbidden) :=
  discord_nonmanaged_forbidden orcNone dbEmpty authPlain reqAlice 0 0 rfl

/-- Counterexample to C8 as stated: a caller authenticated with a
non-managed credential calls the token-issuing endpoint and receives
Forbidden (wire code 4005), not the Unauthenticated error (4004) the claim
names. -/
theorem discord_nonmanaged_counterexample :
    (discord orcNone dbEmpty authPlain reqAlice 0 0).2 =
      Except.error AppErrorKind.Forbidden ∧
    AppErrorKind.Forbidden ≠ AppErrorKind.Unauthorized ∧
    AppErrorKind.intoErrorCode AppErrorKind.Forbidden ≠
      ErrorCode.Unauthenticated := by
  exact ⟨rfl, by decide, by decide⟩

/-- C5: when the upsert finds no existing principal for the discord id,
the create path runs inside one transaction: if the handler returns
success, the database gained exactly the new principal row and its
discord_auth link row together; if any numbered database call fails before
commit, the database is exactly as it was. -/
theorem discord_create_transactional
    (orc : DbOracle) (db : Db) (auth : AuthenticatedUser)
    (req : UpdateDiscordUserRequest) (now : Int) (key : Nat)
    (hmg : auth.managed = true)
    (hnone : db.lookupDiscord req.discord_id = none) :
    (∀ r, (discord orc db auth req now key).2 = Except.ok r →
      (discord orc db auth req now key).1.users =
        db.users ++ [⟨db.nextId, req.display_name, false, now, now⟩] ∧
      (discord orc db auth req now key).1.discordAuth =
        db.discordAuth ++ [⟨db.nextId, req.discord_id, now⟩]) ∧
    (∀ e, (discord orc db auth req now key).2 = Except.error e →
      (discord orc db auth req now key).1 = db) := by
  rcases h0 : orc 0 with _ | e0
  · rcases h1 : orc 1 with _ | e1
    · rcases h2 : orc 2 with _ | e2
      · rcases h3 : orc 3 with _ | e3
        · cases hA : db.discordAuth.any (fun da => da.discord_id == req.discord_id)
          · rcases h4 : orc 4 with _ | e4
            · rcases h5 : orc 5 with _ | e5
              · refine ⟨fun r _ => ⟨?_, ?_⟩, fun e he => ?_⟩
                · simp [discord, hmg, hnone, h0, h1, h2, h3, hA, h4, h5]
                · simp [discord, hmg, hnone, h0, h1, h2, h3, hA, h4, h5]
                · simp [discord, hmg, hnone, h0, h1, h2, h3, hA, h4, h5,
                    discordRespond] at he
              · refine ⟨fun r hr => ?_, fun e _ => ?_⟩
                · simp [discord, hmg, hnone, h0, h1, h2, h3, hA, h4, h5] at hr
                · simp [discord, hmg, hnone, h0, h1, h2, h3, hA, h4, h5]
            · refine ⟨fun r hr => ?_, fun e _ => ?_⟩
              · simp [discord, hmg, hnone, h0, h1, h2, h3, hA, h4] at hr
              · simp [discord, hmg, hnone, h0, h1, h2, h3, hA, h4]
          · refine ⟨fun r hr => ?_, fun e _ => ?_⟩
            · simp [discord, hmg, hnone, h0, h1, h2, h3, hA] at hr
            · simp [discord, hmg, hnone, h0, h1, h2, h3, hA]
        · refine ⟨fun r hr => ?_, fun e _ => ?_⟩
          · simp [discord, hmg, hnone, h0, h1, h2, h3] at hr
          · simp [discord, hmg, hnone, h0, h1, h2, h3]
      · refine ⟨fun r hr => ?_, fun e _ => ?_⟩
        · simp [discord, hmg, hnone, h0, h1, h2] at hr
        · simp [discord, hmg, hnone, h0, h1, h2]
    · refine ⟨fun r hr => ?_, fun e _ => ?_⟩
      · simp [discord, hmg, hnone, h0, h1] at hr
      · simp [discord, hmg, hnone, h0, h1]
  · refine ⟨fun r hr => ?_, fun e _ => ?_⟩
    · simp [discord, hmg, h0] at hr
    · simp [discord, hmg, h0]

/-- Witness for C5's theorem: a managed caller creating a principal for
discord id 42 in an empty database, every call succeeding. -/
theorem discord_create_transactional_witness :
    dbEmpty.users ++ [⟨dbEmpty.nextId, reqAlice.display_name, false, 0, 0⟩] =
      (discord orcNone dbEmpty authBot reqAlice 0 0).1.users ∧
    dbEmpty.discordAuth ++ [⟨dbEmpty.nextId, reqAlice.discord_id, 0⟩] =
      (discord orcNone dbEmpty authBot reqAlice 0 0).1.discordAuth :=
  have h := (discord_create_transactional orcNone dbEmpty authBot reqAlice
    0 0 rfl rfl).1
    ⟨⟨dbEmpty.nextId, reqAlice.display_name⟩, reqAlice.discord_id,
      some ((Claims.build dbEmpty.nextId 0 tokenTtl).encode 0)⟩ rfl
  ⟨h.1.symm, h.2.symm⟩

/-- C6 (amended): when the INSERT into discord_auth inside the create path
reports a uniqueness violation on the external identity (the racing
first-contact case), the handler does not re-fetch: it propagates the
database error (surfaced as an internal error) and leaves the database
unchanged. -/
theorem discord_unique_violation_errors
    (orc : DbOracle) (db : Db) (auth : AuthenticatedUser)
    (req : UpdateDiscordUserRequest) (now : Int) (key : Nat)
    (hmg : auth.managed = true)
    (hnone : db.lookupDiscord req.discord_id = none)
    (h0 : orc 0 = none) (h1 : orc 1 = none) (h2 : orc 2 = none)
    (h3 : orc 3 = none)
    (hdup : db.discordAuth.any
      (fun da => da.discord_id == req.discord_id) = true) :
    discord orc db auth req now key =
      (db, Except.error (AppErrorKind.Database DbError.uniqueViolation)) := by
  simp [discord, hmg, hnone, h0, h1, h2, h3, hdup]

/-- Witness for C6's theorem: the dangling discord_auth row for id 42 makes
the INSERT violate uniqueness; the handler errors and the database state
is unchanged. -/
theorem discord_unique_violation_errors_witness :
    discord orcNone dbDangling authBot reqAlice 0 0 =
      (dbDangling, Except.error (AppErrorKind.Database
        DbError.uniqueViolation)) :=
  discord_unique_violation_errors orcNone dbDangling authBot reqAlice 0 0
    rfl rfl rfl rfl rfl rfl rfl

/-- Counterexample to C6 as stated: on a uniqueness violation at the
discord_auth INSERT, the handler returns an error instead of re-fetching
the existing principal and completing successfully. -/
theorem discord_unique_violation_counterexample :
    discord orcNone dbDangling authBot reqAlice 0 0 =
      (dbDangling, Except.error (AppErrorKind.Database
        DbError.uniqueViolation)) ∧
    ¬∃ r, (discord orcNone dbDangling authBot reqAlice 0 0).2 =
      Except.ok r := by
  refine ⟨rfl, ?_⟩
  rintro ⟨r, hr⟩
  rw [show (discord orcNone dbDangling authBot reqAlice 0 0).2 =
    Except.error (AppErrorKind.Database DbError.uniqueViolation) from rfl]
    at hr
  exact Except.noConfusion hr

/-!
## Claims about the wire error-code enumeration
-/

/-- C9 (amended): in the crate-root scheme (lib.rs) every listed integer of
the spec's wire table converts to its dedicated variant and back, including
4009 to Unowned, and every integer outside the table passes through the
opaque Other variant and back unchanged. In the second scheme (error.rs),
the same holds for every listed integer except 4009: 4008 converts to
InvalidTransfer, and 4009 — absent from that scheme's match — converts to
the opaque Other 4009 rather than to a dedicated variant. -/
theorem errorcode_wire_enumeration :
    ((ErrorCode.ofNat 4000 = ErrorCode.MalformedJson ∧
        ErrorCode.toNat ErrorCode.MalformedJson = 4000) ∧
      (ErrorCode.ofNat 4001 = ErrorCode.InvalidData ∧
        ErrorCode.toNat ErrorCode.InvalidData = 4001) ∧
      (ErrorCode.ofNat 4002 = ErrorCode.UnsupportedContentType ∧
        ErrorCode.toNat ErrorCode.UnsupportedContentType = 4002) ∧
      (ErrorCode.ofNat 4003 = ErrorCode.NotFound ∧
        ErrorCode.toNat ErrorCode.NotFound = 4003) ∧
      (ErrorCode.ofNat 4004 = ErrorCode.Unauthenticated ∧
        ErrorCode.toNat ErrorCode.Unauthenticated = 4004) ∧
      (ErrorCode.ofNat 4005 = ErrorCode.Forbidden ∧
        ErrorCode.toNat ErrorCode.Forbidden = 4005) ∧
      (ErrorCode.ofNat 4006 = ErrorCode.Hidden ∧
        ErrorCode.toNat ErrorCode.Hidden = 4006) ∧
      (ErrorCode.ofNat 4007 = ErrorCode.InsufficientPermissions ∧
        ErrorCode.toNat ErrorCode.InsufficientPermissions = 4007) ∧
      (ErrorCode.ofNat 4008 = ErrorCode.AlreadyOwned ∧
        ErrorCode.toNat ErrorCode.AlreadyOwned = 4008) ∧
      (ErrorCode.ofNat 4009 = ErrorCode.Unowned ∧
        ErrorCode.toNat ErrorCode.Unowned = 4009) ∧
      (ErrorCode.ofNat 4010 = ErrorCode.BadCredentials ∧
        ErrorCode.toNat ErrorCode.BadCredentials = 4010) ∧
      (ErrorCode.ofNat 5000 = ErrorCode.InternalServerError ∧
        ErrorCode.toNat ErrorCode.InternalServerError = 5000)) ∧
    (∀ n, n ∉ wireTable → ErrorCode.ofNat n = ErrorCode.Other n) ∧
    (∀ n, ErrorCode.toNat (ErrorCode.Other n) = n) ∧
    ((ErrorRs.ErrorCode.ofNat 4000 = ErrorRs.ErrorCode.MalformedJson ∧
        ErrorRs.ErrorCode.toNat ErrorRs.ErrorCode.MalformedJson = 4000) ∧
      (ErrorRs.ErrorCode.ofNat 4001 = ErrorRs.ErrorCode.InvalidData ∧
        ErrorRs.ErrorCode.toNat ErrorRs.ErrorCode.InvalidData = 4001) ∧
      (ErrorRs.ErrorCode.ofNat 4002 = ErrorRs.ErrorCode.UnsupportedContentType ∧
        ErrorRs.ErrorCode.toNat ErrorRs.ErrorCode.UnsupportedContentType = 4002) ∧
      (ErrorRs.ErrorCode.ofNat 4003 = ErrorRs.ErrorCode.NotFound ∧
        ErrorRs.ErrorCode.toNat ErrorRs.ErrorCode.NotFound = 4003) ∧
      (ErrorRs.ErrorCode.ofNat 4004 = ErrorRs.ErrorCode.Unauthenticated ∧
        ErrorRs.ErrorCode.toNat ErrorRs.ErrorCode.Unauthenticated = 4004) ∧
      (ErrorRs.ErrorCode.ofNat 4005 = ErrorRs.ErrorCode.Forbidden ∧
        ErrorRs.ErrorCode.toNat ErrorRs.ErrorCode.Forbidden = 4005) ∧
      (ErrorRs.ErrorCode.ofNat 4006 = ErrorRs.ErrorCode.Hidden ∧
        ErrorRs.ErrorCode.toNat ErrorRs.ErrorCode.Hidden = 4006) ∧
      (ErrorRs.ErrorCode.ofNat 4007 = ErrorRs.ErrorCode.InsufficientPermissions ∧
        ErrorRs.ErrorCode.toNat ErrorRs.ErrorCode.InsufficientPermissions = 4007) ∧
      (ErrorRs.ErrorCode.ofNat 4008 = ErrorRs.ErrorCode.InvalidTransfer ∧
        ErrorRs.ErrorCode.toNat ErrorRs.ErrorCode.InvalidTransfer = 4008) ∧
      (ErrorRs.ErrorCode.ofNat 4010 = ErrorRs.ErrorCode.BadCredentials ∧
        ErrorRs.ErrorCode.toNat ErrorRs.ErrorCode.BadCredentials = 4010) ∧
      (ErrorRs.ErrorCode.ofNat 5000 = ErrorRs.ErrorCode.InternalServerError ∧
        ErrorRs.ErrorCode.toNat ErrorRs.ErrorCode.InternalServerError = 5000) ∧
      ErrorRs.ErrorCode.ofNat 4009 = ErrorRs.ErrorCode.Other 4009) ∧
    (∀ n, n ∉ wireTable → ErrorRs.ErrorCode.ofNat n = ErrorRs.ErrorCode.Other n) ∧
    (∀ n, ErrorRs.ErrorCode.toNat (ErrorRs.ErrorCode.Other n) = n) := by
  refine ⟨by decide, ?_, fun n => rfl, by decide, ?_, fun n => rfl⟩
  · intro n hn
    simp only [wireTable, List.mem_cons, List.not_mem_nil, or_false,
      not_or] at hn
    obtain ⟨h0, h1, h2, h3, h4, h5, h6, h7, h8, h9, h10, h11⟩ := hn
    simp [ErrorCode.ofNat, h0, h1, h2, h3, h4, h5, h6, h7, h8, h9, h10, h11]
  · intro n hn
    simp only [wireTable, List.mem_cons, List.not_mem_nil, or_false,
      not_or] at hn
    obtain ⟨h0, h1, h2, h3, h4, h5, h6, h7, h8, h9, h10, h11⟩ := hn
    simp [ErrorRs.ErrorCode.ofNat, h0, h1, h2, h3, h4, h5, h6, h7, h8, h9,
      h10, h11]

/-- Witness for C9's theorem: the out-of-table integer 4242 passes through
the opaque variant in both schemes. -/
theorem errorcode_wire_enumeration_witness :
    ErrorCode.ofNat 4242 = ErrorCode.Other 4242 ∧
    ErrorRs.ErrorCode.ofNat 4242 = ErrorRs.ErrorCode.Other 4242 :=
  ⟨errorcode_wire_enumeration.2.1 4242 (by decide),
    errorcode_wire_enumeration.2.2.2.2.1 4242 (by decide)⟩

/-- Counterexample to C9 as stated: in the error.rs scheme, the listed
integer 4009 does not convert to a dedicated variant (that scheme has no
Unowned variant at all): it converts to the opaque Other variant reserved
for integers outside the table. -/
theorem errorcode_4009_unified_counterexample :
    ErrorRs.ErrorCode.ofNat 4009 = ErrorRs.ErrorCode.Other 4009 := by
  decide
